import Mathlib

/-!
Verification of the Financial Document Analyzer request lifecycle.

Shallow embedding of the FastAPI service in `main.py` and the persistence
layer in `database/database.py` / `database/models.py`.  The database is a
pair of lists (users, analysis records); external collaborators (clock,
uuid generation, the pypdf text extraction, the crewai pipeline) are an
oracle record supplied per request; the cryptographic file hash is an
arbitrary function parameter `hashFn` (the code calls hashlib.sha256,
treated as an opaque deterministic digest).  Python exceptions become
explicit branches: every `raise HTTPException` is an `httpError` response,
and the `finally` cleanup is performed on each exit path just as the
`try/finally` guarantees.
-/

/-- Python str.lower for the ASCII range, as applied to filenames. -/
def pyLower (s : String) : String := String.mk (s.data.map Char.toLower)

/-- Python str.endswith: literal suffix test. -/
def pyEndsWith (s suffix : String) : Bool :=
  let l := s.data
  let r := suffix.data
  decide (r.length ≤ l.length) && (l.drop (l.length - r.length) == r)

/-- Characters Python str.strip removes (ASCII whitespace). -/
def isPyWhitespace (c : Char) : Bool :=
  c == ' ' || c == '\t' || c == '\n' || c == '\r' || c == '\x0b' || c == '\x0c'

/-- Python str.strip(): drop leading and trailing whitespace. -/
def pyStrip (s : String) : String :=
  String.mk (((s.data.dropWhile isPyWhitespace).reverse.dropWhile isPyWhitespace).reverse)

/-- Python round() of the fraction n / d (d > 0) to the nearest integer,
ties to even; floats are modelled as exact rationals. -/
def roundHalfEvenFrac (n : ℤ) (d : ℕ) : ℤ :=
  let f := Int.fdiv n d
  let r := Int.fmod n d
  if 2 * r < (d : ℤ) then f
  else if (d : ℤ) < 2 * r then f + 1
  else if f % 2 = 0 then f else f + 1

/-- Python round(x, 2): rounds x * 100 = (x.num * 100) / x.den to the
nearest integer, ties to even, then divides by 100. -/
def roundPy2 (q : ℚ) : ℚ := mkRat (roundHalfEvenFrac (q.num * 100) q.den) 100

/-- A row of the users table (models.User). -/
structure UserRec where
  id : Nat
  user_id : String
  email : String
  full_name : String
  is_active : Bool
  deriving Repr, DecidableEq

/-- A row of the analysis_results table (models.AnalysisResult). -/
structure AnalysisRecord where
  id : Nat
  analysis_id : String
  user_id : Nat
  original_filename : String
  file_size : Nat
  file_hash : String
  query : String
  status : String
  progress : Nat
  analysis_report : Option String
  financial_metrics : Option String
  investment_recommendations : Option String
  risk_assessment : Option String
  processing_time : Option ℚ
  error_message : Option String
  created_at : Int
  completed_at : Option Int
  deriving Repr, DecidableEq

/-- The relational store: the two live tables. -/
structure DB where
  users : List UserRec
  analyses : List AnalysisRecord
  deriving Repr, DecidableEq

/-- SQLite-style autoincrement id for a fresh users row. -/
def nextUserId (db : DB) : Nat :=
  db.users.foldr (fun u m => max u.id m) 0 + 1

/-- SQLite-style autoincrement id for a fresh analysis_results row. -/
def nextAnalysisId (db : DB) : Nat :=
  db.analyses.foldr (fun a m => max a.id m) 0 + 1

/-- Per-request external nondeterminism: clock, generated uuids, and the
outcomes of the two external collaborators.  extraction models
_extract_pdf_text's interaction with pypdf: `.error m` is a PdfReader
failure (raised as a 400 HTTPException with detail "Error reading PDF: m"),
`.ok t` is the concatenated page text.  pipeline models run_crew:
`.error m` is an exception with message m, `.ok r` is str(response). -/
structure Oracle where
  now : Int
  elapsed : ℚ
  newUserUuid : String
  newAnalysisUuid : String
  fileId : String
  extraction : Except String String
  pipeline : Except String String
  deriving Repr

/-- A multipart /analyze request. -/
structure AnalyzeRequest where
  filename : String
  content : List Nat
  query : String
  user_email : String
  user_name : String
  deriving Repr, DecidableEq

/-- The JSON bodies the /analyze handler can produce; every
raise HTTPException(status, detail) is an httpError. -/
inductive AnalyzeResponse where
  | success (analysis_id : String) (query : String) (analysis : String)
      (file_processed : String) (document_length : Nat)
      (processing_time : ℚ) (user_id : String)
  | duplicateFound (message : String) (analysis_id : String)
      (analysis_report : Option String) (created_at : Int)
      (processing_time : Option ℚ)
  | httpError (status : Nat) (detail : String)
  deriving Repr, DecidableEq

/-- HTTP status code of a response (200 for the JSON bodies). -/
def AnalyzeResponse.statusCode : AnalyzeResponse → Nat
  | .httpError s _ => s
  | _ => 200

/-- Result of one /analyze request: the response, the post-state of the
store and of the working directory, whether run_crew was invoked, and the
final value of the handler's `analysis` record when one was created. -/
structure AnalyzeOutcome where
  response : AnalyzeResponse
  db : DB
  fs : List String
  pipelineRan : Bool
  record : Option AnalysisRecord
  deriving Repr, DecidableEq

/-- The path f-string "data/financial_document_{file_id}.pdf". -/
def tempFilePath (fileId : String) : String :=
  "data/financial_document_" ++ fileId ++ ".pdf"

/-- The default query, also used when the submitted query strips to empty. -/
def defaultQuery : String :=
  "Analyze this financial document for investment insights"

/-- str(HTTPException(status, detail)) as starlette renders it. -/
def httpExcStr (status : Nat) (detail : String) : String :=
  toString status ++ ": " ++ detail

/-- The user object the handler works with: the first users row with the
given email, else the freshly constructed row (main.py lines 141-146). -/
def resolvedUser (db : DB) (email name uuid : String) : UserRec :=
  match db.users.find? (fun u => u.email == email) with
  | some u => u
  | none =>
    { id := nextUserId db, user_id := uuid, email := email,
      full_name := name, is_active := true }

/-- The store after the create-or-get-user block: unchanged when the email
resolves, else with the fresh row committed. -/
def dbAfterUser (db : DB) (email name uuid : String) : DB :=
  match db.users.find? (fun u => u.email == email) with
  | some _ => db
  | none => { db with users := db.users ++ [resolvedUser db email name uuid] }

/-- The duplicate lookup (main.py lines 150-157): first analysis row with
the same user id, same file hash, created within the last 24 hours
(86400 s), and status completed. -/
def findDuplicate (db : DB) (uid : Nat) (fhash : String) (now : Int) :
    Option AnalysisRecord :=
  db.analyses.find? (fun a =>
    a.user_id == uid && a.file_hash == fhash &&
    decide (now - 86400 ≤ a.created_at) && a.status == "completed")

/-- Marking a record failed (main.py lines 189-190, 194-195, 230-231):
assigns status and error_message, touches nothing else. -/
def markFailed (a : AnalysisRecord) (msg : String) : AnalysisRecord :=
  { a with status := "failed", error_message := some msg }

/-- Append a committed analysis row. -/
def pushAnalysis (db : DB) (a : AnalysisRecord) : DB :=
  { db with analyses := db.analyses ++ [a] }

/-- The analysis row as first committed (main.py lines 172-183): status
processing, progress 10, query stripped with a default fallback. -/
def initialRecord (hashFn : List Nat → String) (req : AnalyzeRequest)
    (o : Oracle) (db1 : DB) (uid : Nat) : AnalysisRecord :=
  { id := nextAnalysisId db1,
    analysis_id := o.newAnalysisUuid,
    user_id := uid,
    original_filename := req.filename,
    file_size := req.content.length,
    file_hash := hashFn req.content,
    query := if (pyStrip req.query) ≠ "" then pyStrip req.query
             else defaultQuery,
    status := "processing",
    progress := 10,
    analysis_report := none, financial_metrics := none,
    investment_recommendations := none, risk_assessment := none,
    processing_time := none, error_message := none,
    created_at := o.now, completed_at := none }

/-- The completion update (main.py lines 211-215): report, completed,
progress 100, timing. -/
def completedRecord (a : AnalysisRecord) (resp : String) (o : Oracle) :
    AnalysisRecord :=
  { a with
    analysis_report := some resp, status := "completed", progress := 100,
    processing_time := some o.elapsed, completed_at := some o.now }

/-- The POST /analyze handler (main.py analyze_financial_document),
branch for branch.  The record value is threaded functionally: the ORM
object mutated in place between commits becomes a sequence of record
values, and the final one is the row left in the store. -/
def analyze (hashFn : List Nat → String) (req : AnalyzeRequest) (o : Oracle)
    (db : DB) (fs : List String) : AnalyzeOutcome :=
  if pyEndsWith (pyLower req.filename) ".pdf" = false then
    -- raised before the try block: nothing written, nothing created
    { response := .httpError 400 "Only PDF files are supported",
      db := db, fs := fs, pipelineRan := false, record := none }
  else
    let file_path := tempFilePath o.fileId
    if req.content.isEmpty then
      -- raised before the file is written; the finally block finds no file
      { response := .httpError 400 "Uploaded file is empty",
        db := db, fs := fs, pipelineRan := false, record := none }
    else
      let fs1 := fs ++ [file_path]
      let file_hash := hashFn req.content
      let user := resolvedUser db req.user_email req.user_name o.newUserUuid
      let db1 := dbAfterUser db req.user_email req.user_name o.newUserUuid
      match findDuplicate db1 user.id file_hash o.now with
      | some dup =>
        { response := .duplicateFound "Similar analysis found from recent history"
            dup.analysis_id dup.analysis_report dup.created_at dup.processing_time,
          db := db1, fs := fs1.erase file_path,
          pipelineRan := false, record := none }
      | none =>
        let analysis0 := initialRecord hashFn req o db1 user.id
        match o.extraction with
        | .error msg =>
          -- the 400 raised inside _extract_pdf_text is caught by the inner
          -- `except Exception`, which marks the row failed with str(e)
          let detail := "Error reading PDF: " ++ msg
          let a1 := markFailed analysis0 (httpExcStr 400 detail)
          { response := .httpError 400 detail,
            db := pushAnalysis db1 a1, fs := fs1.erase file_path,
            pipelineRan := false, record := some a1 }
        | .ok text =>
          if pyStrip text = "" then
            -- marked failed with the plain message and committed, then the
            -- raised 400 is caught by the same inner handler and the row is
            -- re-marked with str(e) before the exception propagates
            let detail := "Uploaded PDF contains no readable text"
            let a1 := markFailed (markFailed analysis0 detail)
                        (httpExcStr 400 detail)
            { response := .httpError 400 detail,
              db := pushAnalysis db1 a1, fs := fs1.erase file_path,
              pipelineRan := false, record := some a1 }
          else
            let a2 := { analysis0 with progress := 30 }
            match o.pipeline with
            | .error msg =>
              let a3 := markFailed a2 msg
              { response := .httpError 500 ("Error during analysis: " ++ msg),
                db := pushAnalysis db1 a3, fs := fs1.erase file_path,
                pipelineRan := true, record := some a3 }
            | .ok resp =>
              let a3 := completedRecord a2 resp o
              { response := .success a3.analysis_id a3.query resp req.filename
                  text.length (roundPy2 o.elapsed) user.user_id,
                db := pushAnalysis db1 a3, fs := fs1.erase file_path,
                pipelineRan := true, record := some a3 }

/-- The JSON body of POST /users/ (main.py create_user); the existing-user
branch carries only message and user_id, so absent keys are `none`. -/
structure CreateUserResult where
  message : String
  user_id : String
  email : Option String
  full_name : Option String
  deriving Repr, DecidableEq

/-- The POST /users/ handler's response (main.py lines 81-104). -/
def create_user_response (db : DB) (email full_name uuid : String) :
    CreateUserResult :=
  match db.users.find? (fun u => u.email == email) with
  | some u =>
    { message := "User already exists", user_id := u.user_id,
      email := none, full_name := none }
  | none =>
    { message := "User created successfully", user_id := uuid,
      email := some email, full_name := some full_name }

/-- The POST /users/ handler's effect on the store. -/
def create_user_db (db : DB) (email full_name uuid : String) : DB :=
  dbAfterUser db email full_name uuid

/-- Update the first list element satisfying p, as a `.first()` query
followed by attribute assignment does. -/
def updateFirst (p : α → Bool) (f : α → α) : List α → List α
  | [] => []
  | x :: xs => if p x then f x :: xs else x :: updateFirst p f xs

/-- DatabaseManager.update_analysis_status: sets status, sets progress only
when one is passed, stamps completed_at when the new status is completed. -/
def update_analysis_status (db : DB) (analysis_id : String) (status : String)
    (progress : Option Nat) (now : Int) : DB :=
  { db with analyses := (updateFirst (fun a => a.analysis_id == analysis_id)
      (fun a =>
        let a1 := { a with status := status }
        let a2 := match progress with
                  | some p => { a1 with progress := p }
                  | none => a1
        if status == "completed" then { a2 with completed_at := some now }
        else a2)
      db.analyses) }

/-- DatabaseManager.save_analysis_results: stores the report fields and
sets the terminal completed state with progress 100. -/
def save_analysis_results (db : DB) (analysis_id : String) (report : String)
    (metrics recs risk : Option String) (ptime : Option ℚ) (now : Int) : DB :=
  { db with analyses := (updateFirst (fun a => a.analysis_id == analysis_id)
      (fun a => { a with
        analysis_report := some report, financial_metrics := metrics,
        investment_recommendations := recs, risk_assessment := risk,
        processing_time := ptime, status := "completed", progress := 100,
        completed_at := some now })
      db.analyses) }

/-- The record invariant of claim C2 as a boolean:
progress = 100 exactly when status = completed. -/
def invB (a : AnalysisRecord) : Bool :=
  (a.progress == 100) == (a.status == "completed")

/-- The GET /stats JSON body (main.py get_system_stats). -/
structure Stats where
  total_users : Nat
  total_analyses : Nat
  completed_analyses : Nat
  failed_analyses : Nat
  success_rate : ℚ
  average_processing_time : ℚ
  deriving Repr, DecidableEq

/-- The GET /stats handler (main.py lines 325-352). -/
def get_system_stats (db : DB) : Stats :=
  let total_users := db.users.length
  let total_analyses := db.analyses.length
  let completed_analyses :=
    (db.analyses.filter (fun a => a.status == "completed")).length
  let failed_analyses :=
    (db.analyses.filter (fun a => a.status == "failed")).length
  let times := db.analyses.filterMap (fun a => a.processing_time)
  let avg : Option ℚ :=
    if times.isEmpty then none else some (times.sum / (times.length : ℚ))
  { total_users := total_users,
    total_analyses := total_analyses,
    completed_analyses := completed_analyses,
    failed_analyses := failed_analyses,
    success_rate :=
      if 0 < total_analyses then
        roundPy2 ((completed_analyses : ℚ) / (total_analyses : ℚ) * 100)
      else 0,
    average_processing_time :=
      match avg with
      | some v => if v ≠ 0 then roundPy2 v else 0
      | none => 0 }

/-- Written from the spec's words, for comparison with the code: success
rate equals completed / total * 100 rounded to two decimal places when
total is positive, and 0 when total is zero. -/
def specSuccessRate (completed total : Nat) : ℚ :=
  if total = 0 then 0 else roundPy2 ((completed : ℚ) / (total : ℚ) * 100)

/-! Concrete fixtures used by witnesses and counterexamples. -/

/-- A constant digest: any deterministic hash function instantiates the
`hashFn` parameter. -/
def hashConst : List Nat → String := fun _ => "h"

/-- An oracle for a request where both collaborators succeed. -/
def oracleOk : Oracle :=
  { now := 100000, elapsed := 2, newUserUuid := "u-new",
    newAnalysisUuid := "a-new", fileId := "fid",
    extraction := .ok "hello", pipeline := .ok "report text" }

/-- An oracle for a request where pypdf fails to read the file. -/
def oracleExtractFail : Oracle := { oracleOk with extraction := .error "boom" }

/-- A well-formed upload request. -/
def reqSample : AnalyzeRequest :=
  { filename := "doc.pdf", content := [1, 2], query := "  q1 ",
    user_email := "a@b.c", user_name := "Alice" }

/-- The same request with an upper-case extension. -/
def reqPdfUpper : AnalyzeRequest := { reqSample with filename := "report.PDF" }

/-- The same request with a non-document extension. -/
def reqTxt : AnalyzeRequest := { reqSample with filename := "doc.txt" }

/-- A stored user row. -/
def userAlice : UserRec :=
  { id := 1, user_id := "u-1", email := "a@b.c",
    full_name := "Alice", is_active := true }

/-- A completed analysis row for userAlice's file (hash "h"). -/
def recCompleted : AnalysisRecord :=
  { id := 1, analysis_id := "a-old", user_id := 1,
    original_filename := "x.pdf", file_size := 2, file_hash := "h",
    query := "q", status := "completed", progress := 100,
    analysis_report := some "old report", financial_metrics := none,
    investment_recommendations := none, risk_assessment := none,
    processing_time := some 2, error_message := none,
    created_at := 100000, completed_at := some 100000 }

/-- An in-flight analysis row satisfying the progress invariant. -/
def recProcessing : AnalysisRecord :=
  { recCompleted with
    analysis_id := "a1", status := "processing",
    progress := 10, completed_at := none, analysis_report := none }

/-- The empty store. -/
def dbEmpty : DB := { users := [], analyses := [] }

/-- A store holding userAlice and her completed analysis. -/
def dbAlice : DB := { users := [userAlice], analyses := [recCompleted] }

/-- A store with a completed analysis row whose user_id dangles (SQLite
does not enforce the foreign key by default). -/
def dbDangling : DB := { users := [], analyses := [recCompleted] }

/-! Helper lemmas shared across the claim theorems. -/

theorem dbAfterUser_analyses (db : DB) (e n u : String) :
    (dbAfterUser db e n u).analyses = db.analyses := by
  unfold dbAfterUser
  cases db.users.find? (fun x => x.email == e) <;> rfl

theorem dbAfterUser_users_of_new (db : DB) (e n u : String)
    (h : db.users.find? (fun x => x.email == e) = none) :
    (dbAfterUser db e n u).users = db.users ++ [resolvedUser db e n u] := by
  unfold dbAfterUser
  rw [h]

theorem resolvedUser_of_new (db : DB) (e n u : String)
    (h : db.users.find? (fun x => x.email == e) = none) :
    resolvedUser db e n u =
      { id := nextUserId db, user_id := u, email := e,
        full_name := n, is_active := true } := by
  unfold resolvedUser
  rw [h]

theorem erase_append_singleton (fs : List String) (p : String) (h : p ∉ fs) :
    (fs ++ [p]).erase p = fs := by
  rw [List.erase_append_right _ h, List.erase_cons_head, List.append_nil]

/-! Branch characterizations of the /analyze handler. -/

theorem analyze_bad_filename (hashFn : List Nat → String)
    (req : AnalyzeRequest) (o : Oracle) (db : DB) (fs : List String)
    (hval : pyEndsWith (pyLower req.filename) ".pdf" = false) :
    analyze hashFn req o db fs =
      { response := .httpError 400 "Only PDF files are supported",
        db := db, fs := fs, pipelineRan := false, record := none } := by
  unfold analyze
  simp [hval]

theorem analyze_empty_content (hashFn : List Nat → String)
    (req : AnalyzeRequest) (o : Oracle) (db : DB) (fs : List String)
    (hval : pyEndsWith (pyLower req.filename) ".pdf" = true)
    (hne : req.content.isEmpty = true) :
    analyze hashFn req o db fs =
      { response := .httpError 400 "Uploaded file is empty",
        db := db, fs := fs, pipelineRan := false, record := none } := by
  unfold analyze
  simp [hval, hne]

theorem analyze_duplicate (hashFn : List Nat → String)
    (req : AnalyzeRequest) (o : Oracle) (db : DB) (fs : List String)
    (d : AnalysisRecord)
    (hval : pyEndsWith (pyLower req.filename) ".pdf" = true)
    (hne : req.content.isEmpty = false)
    (hdup : findDuplicate (dbAfterUser db req.user_email req.user_name o.newUserUuid)
        (resolvedUser db req.user_email req.user_name o.newUserUuid).id
        (hashFn req.content) o.now = some d) :
    analyze hashFn req o db fs =
      { response := .duplicateFound "Similar analysis found from recent history"
          d.analysis_id d.analysis_report d.created_at d.processing_time,
        db := dbAfterUser db req.user_email req.user_name o.newUserUuid,
        fs := (fs ++ [tempFilePath o.fileId]).erase (tempFilePath o.fileId),
        pipelineRan := false, record := none } := by
  unfold analyze
  simp [hval, hne, hdup]

theorem analyze_extract_error (hashFn : List Nat → String)
    (req : AnalyzeRequest) (o : Oracle) (db : DB) (fs : List String)
    (m : String)
    (hval : pyEndsWith (pyLower req.filename) ".pdf" = true)
    (hne : req.content.isEmpty = false)
    (hdup : findDuplicate (dbAfterUser db req.user_email req.user_name o.newUserUuid)
        (resolvedUser db req.user_email req.user_name o.newUserUuid).id
        (hashFn req.content) o.now = none)
    (hex : o.extraction = .error m) :
    analyze hashFn req o db fs =
      { response := .httpError 400 ("Error reading PDF: " ++ m),
        db := pushAnalysis (dbAfterUser db req.user_email req.user_name o.newUserUuid)
          (markFailed (initialRecord hashFn req o
              (dbAfterUser db req.user_email req.user_name o.newUserUuid)
              (resolvedUser db req.user_email req.user_name o.newUserUuid).id)
            (httpExcStr 400 ("Error reading PDF: " ++ m))),
        fs := (fs ++ [tempFilePath o.fileId]).erase (tempFilePath o.fileId),
        pipelineRan := false,
        record := some (markFailed (initialRecord hashFn req o
            (dbAfterUser db req.user_email req.user_name o.newUserUuid)
            (resolvedUser db req.user_email req.user_name o.newUserUuid).id)
          (httpExcStr 400 ("Error reading PDF: " ++ m))) } := by
  unfold analyze
  simp [hval, hne, hdup, hex]

theorem analyze_no_text (hashFn : List Nat → String)
    (req : AnalyzeRequest) (o : Oracle) (db : DB) (fs : List String)
    (t : String)
    (hval : pyEndsWith (pyLower req.filename) ".pdf" = true)
    (hne : req.content.isEmpty = false)
    (hdup : findDuplicate (dbAfterUser db req.user_email req.user_name o.newUserUuid)
        (resolvedUser db req.user_email req.user_name o.newUserUuid).id
        (hashFn req.content) o.now = none)
    (hex : o.extraction = .ok t)
    (ht : pyStrip t = "") :
    analyze hashFn req o db fs =
      { response := .httpError 400 "Uploaded PDF contains no readable text",
        db := pushAnalysis (dbAfterUser db req.user_email req.user_name o.newUserUuid)
          (markFailed (markFailed (initialRecord hashFn req o
              (dbAfterUser db req.user_email req.user_name o.newUserUuid)
              (resolvedUser db req.user_email req.user_name o.newUserUuid).id)
              "Uploaded PDF contains no readable text")
            (httpExcStr 400 "Uploaded PDF contains no readable text")),
        fs := (fs ++ [tempFilePath o.fileId]).erase (tempFilePath o.fileId),
        pipelineRan := false,
        record := some (markFailed (markFailed (initialRecord hashFn req o
            (dbAfterUser db req.user_email req.user_name o.newUserUuid)
            (resolvedUser db req.user_email req.user_name o.newUserUuid).id)
            "Uploaded PDF contains no readable text")
          (httpExcStr 400 "Uploaded PDF contains no readable text")) } := by
  unfold analyze
  simp [hval, hne, hdup, hex, ht]

theorem analyze_pipeline_error (hashFn : List Nat → String)
    (req : AnalyzeRequest) (o : Oracle) (db : DB) (fs : List String)
    (t m : String)
    (hval : pyEndsWith (pyLower req.filename) ".pdf" = true)
    (hne : req.content.isEmpty = false)
    (hdup : findDuplicate (dbAfterUser db req.user_email req.user_name o.newUserUuid)
        (resolvedUser db req.user_email req.user_name o.newUserUuid).id
        (hashFn req.content) o.now = none)
    (hex : o.extraction = .ok t)
    (ht : ¬ pyStrip t = "")
    (hp : o.pipeline = .error m) :
    analyze hashFn req o db fs =
      { response := .httpError 500 ("Error during analysis: " ++ m),
        db := pushAnalysis (dbAfterUser db req.user_email req.user_name o.newUserUuid)
          (markFailed { initialRecord hashFn req o
              (dbAfterUser db req.user_email req.user_name o.newUserUuid)
              (resolvedUser db req.user_email req.user_name o.newUserUuid).id
              with progress := 30 } m),
        fs := (fs ++ [tempFilePath o.fileId]).erase (tempFilePath o.fileId),
        pipelineRan := true,
        record := some (markFailed { initialRecord hashFn req o
            (dbAfterUser db req.user_email req.user_name o.newUserUuid)
            (resolvedUser db req.user_email req.user_name o.newUserUuid).id
            with progress := 30 } m) } := by
  unfold analyze
  simp [hval, hne, hdup, hex, ht, hp]

theorem analyze_success (hashFn : List Nat → String)
    (req : AnalyzeRequest) (o : Oracle) (db : DB) (fs : List String)
    (t resp : String)
    (hval : pyEndsWith (pyLower req.filename) ".pdf" = true)
    (hne : req.content.isEmpty = false)
    (hdup : findDuplicate (dbAfterUser db req.user_email req.user_name o.newUserUuid)
        (resolvedUser db req.user_email req.user_name o.newUserUuid).id
        (hashFn req.content) o.now = none)
    (hex : o.extraction = .ok t)
    (ht : ¬ pyStrip t = "")
    (hp : o.pipeline = .ok resp) :
    analyze hashFn req o db fs =
      { response := .success o.newAnalysisUuid
          (initialRecord hashFn req o
            (dbAfterUser db req.user_email req.user_name o.newUserUuid)
            (resolvedUser db req.user_email req.user_name o.newUserUuid).id).query
          resp req.filename t.length (roundPy2 o.elapsed)
          (resolvedUser db req.user_email req.user_name o.newUserUuid).user_id,
        db := pushAnalysis (dbAfterUser db req.user_email req.user_name o.newUserUuid)
          (completedRecord { initialRecord hashFn req o
              (dbAfterUser db req.user_email req.user_name o.newUserUuid)
              (resolvedUser db req.user_email req.user_name o.newUserUuid).id
              with progress := 30 } resp o),
        fs := (fs ++ [tempFilePath o.fileId]).erase (tempFilePath o.fileId),
        pipelineRan := true,
        record := some (completedRecord { initialRecord hashFn req o
            (dbAfterUser db req.user_email req.user_name o.newUserUuid)
            (resolvedUser db req.user_email req.user_name o.newUserUuid).id
            with progress := 30 } resp o) } := by
  unfold analyze
  simp [hval, hne, hdup, hex, ht, hp, completedRecord, initialRecord]

/-! Claim theorems. -/

/-- C8: marking an AnalysisRecord failed sets status to "failed" and
error_message to the failure's message, and changes no other field:
progress, analysis_report, processing_time, and all remaining fields keep
their prior values. -/
theorem markFailed_frame (a : AnalysisRecord) (msg : String) :
    (markFailed a msg).status = "failed" ∧
    (markFailed a msg).error_message = some msg ∧
    (markFailed a msg).progress = a.progress ∧
    (markFailed a msg).analysis_report = a.analysis_report ∧
    (markFailed a msg).processing_time = a.processing_time ∧
    (markFailed a msg).id = a.id ∧
    (markFailed a msg).analysis_id = a.analysis_id ∧
    (markFailed a msg).user_id = a.user_id ∧
    (markFailed a msg).original_filename = a.original_filename ∧
    (markFailed a msg).file_size = a.file_size ∧
    (markFailed a msg).file_hash = a.file_hash ∧
    (markFailed a msg).query = a.query ∧
    (markFailed a msg).financial_metrics = a.financial_metrics ∧
    (markFailed a msg).investment_recommendations = a.investment_recommendations ∧
    (markFailed a msg).risk_assessment = a.risk_assessment ∧
    (markFailed a msg).created_at = a.created_at ∧
    (markFailed a msg).completed_at = a.completed_at :=
  ⟨rfl, rfl, rfl, rfl, rfl, rfl, rfl, rfl, rfl, rfl, rfl, rfl, rfl, rfl,
   rfl, rfl, rfl⟩

/-- C6: the GET /stats success rate equals completed / total * 100 rounded
to two decimal places when total is positive, and 0 when total is zero —
the handler's value coincides with the spec's formula on every store. -/
theorem stats_success_rate_matches_spec (db : DB) :
    (get_system_stats db).success_rate =
      specSuccessRate
        ((db.analyses.filter (fun a => a.status == "completed")).length)
        db.analyses.length := by
  unfold get_system_stats specSuccessRate
  by_cases h : db.analyses.length = 0
  · simp [h]
  · simp [h, Nat.pos_of_ne_zero h]

/-- C5 counterexample: with a user for the email already stored,
POST /users/ returns a payload whose email and full_name keys are absent,
contradicting the claim for the existing-user case. -/
theorem create_user_existing_payload_lacks_fields :
    (create_user_response dbAlice "a@b.c" "Alice" "u2").email = none ∧
    (create_user_response dbAlice "a@b.c" "Alice" "u2").full_name = none := by
  decide

/-- C5 (amended): POST /users/ returns a 200 payload containing user_id,
email, and full_name when the user is newly created; when a user with that
email already exists the payload carries only a message and the user_id. -/
theorem create_user_payload_shape (db : DB) (email name uuid : String) :
    (db.users.find? (fun u => u.email == email) = none →
      create_user_response db email name uuid =
        { message := "User created successfully", user_id := uuid,
          email := some email, full_name := some name }) ∧
    (∀ u, db.users.find? (fun v => v.email == email) = some u →
      create_user_response db email name uuid =
        { message := "User already exists", user_id := u.user_id,
          email := none, full_name := none }) := by
  constructor
  · intro h
    unfold create_user_response
    rw [h]
  · intro u h
    unfold create_user_response
    rw [h]

/-- Witness for the amended C5 at a concrete store. -/
theorem create_user_payload_shape_witness :
    create_user_response dbEmpty "a@b.c" "Alice" "u2" =
      { message := "User created successfully", user_id := "u2",
        email := some "a@b.c", full_name := some "Alice" } :=
  (create_user_payload_shape dbEmpty "a@b.c" "Alice" "u2").1 (by decide)

/-- C2 counterexample: a record satisfying the progress invariant, passed
through DatabaseManager.update_analysis_status with status completed and
no progress argument, ends with status completed and progress 10. -/
theorem update_status_breaks_progress_invariant :
    invB recProcessing = true ∧
    ((update_analysis_status { users := [], analyses := [recProcessing] }
        "a1" "completed" none 5).analyses.map invB) = [false] := by
  decide

/-- C2 (amended): the /analyze handler's store operations (record
creation, failure marking, completion) preserve the invariant
progress == 100 iff status == "completed" on every record of the store;
DatabaseManager.update_analysis_status is excepted, since it can set
status completed while leaving progress unchanged. -/
theorem analyze_preserves_progress_invariant (hashFn : List Nat → String)
    (req : AnalyzeRequest) (o : Oracle) (db : DB) (fs : List String)
    (hinv : db.analyses.all invB = true) :
    (analyze hashFn req o db fs).db.analyses.all invB = true := by
  by_cases hval : pyEndsWith (pyLower req.filename) ".pdf" = false
  · rw [analyze_bad_filename hashFn req o db fs hval]
    exact hinv
  · have hval' : pyEndsWith (pyLower req.filename) ".pdf" = true := by
      revert hval
      cases pyEndsWith (pyLower req.filename) ".pdf" <;> simp
    by_cases hne : req.content.isEmpty = true
    · rw [analyze_empty_content hashFn req o db fs hval' hne]
      exact hinv
    · have hne' : req.content.isEmpty = false := by
        revert hne
        cases req.content.isEmpty <;> simp
      cases hfd : findDuplicate
          (dbAfterUser db req.user_email req.user_name o.newUserUuid)
          (resolvedUser db req.user_email req.user_name o.newUserUuid).id
          (hashFn req.content) o.now with
      | some d =>
        rw [analyze_duplicate hashFn req o db fs d hval' hne' hfd]
        show (dbAfterUser db req.user_email req.user_name o.newUserUuid).analyses.all invB = true
        rw [dbAfterUser_analyses]
        exact hinv
      | none =>
        cases hex : o.extraction with
        | error m =>
          rw [analyze_extract_error hashFn req o db fs m hval' hne' hfd hex]
          simp [pushAnalysis, dbAfterUser_analyses, List.all_append, hinv,
            invB, markFailed, initialRecord]
        | ok t =>
          by_cases hts : pyStrip t = ""
          · rw [analyze_no_text hashFn req o db fs t hval' hne' hfd hex hts]
            simp [pushAnalysis, dbAfterUser_analyses, List.all_append, hinv,
              invB, markFailed, initialRecord]
          · cases hp : o.pipeline with
            | error m =>
              rw [analyze_pipeline_error hashFn req o db fs t m hval' hne' hfd hex hts hp]
              simp [pushAnalysis, dbAfterUser_analyses, List.all_append, hinv,
                invB, markFailed, initialRecord]
            | ok resp =>
              rw [analyze_success hashFn req o db fs t resp hval' hne' hfd hex hts hp]
              simp [pushAnalysis, dbAfterUser_analyses, List.all_append, hinv,
                invB, completedRecord, initialRecord]

/-- Witness for the amended C2 at a concrete request against a store that
satisfies the invariant. -/
theorem analyze_preserves_progress_invariant_witness :
    (analyze hashConst reqSample oracleOk dbAlice []).db.analyses.all invB = true :=
  analyze_preserves_progress_invariant hashConst reqSample oracleOk dbAlice []
    (by decide)

/-- C1: when the duplicate lookup (same user, same content hash, status
completed, created within the last 24 hours) returns a match, the handler
returns the prior result's payload, the analyses table is unchanged (no
new record), and the pipeline is not invoked. -/
theorem analyze_duplicate_short_circuit (hashFn : List Nat → String)
    (req : AnalyzeRequest) (o : Oracle) (db : DB) (fs : List String)
    (d : AnalysisRecord)
    (hval : pyEndsWith (pyLower req.filename) ".pdf" = true)
    (hne : req.content.isEmpty = false)
    (hdup : findDuplicate (dbAfterUser db req.user_email req.user_name o.newUserUuid)
        (resolvedUser db req.user_email req.user_name o.newUserUuid).id
        (hashFn req.content) o.now = some d) :
    (analyze hashFn req o db fs).response =
      .duplicateFound "Similar analysis found from recent history"
        d.analysis_id d.analysis_report d.created_at d.processing_time ∧
    (analyze hashFn req o db fs).db.analyses = db.analyses ∧
    (analyze hashFn req o db fs).pipelineRan = false := by
  rw [analyze_duplicate hashFn req o db fs d hval hne hdup]
  exact ⟨rfl, dbAfterUser_analyses db req.user_email req.user_name o.newUserUuid, rfl⟩

/-- Witness for C1: a stored completed analysis of the same file by the
same user short-circuits the second request. -/
theorem analyze_duplicate_short_circuit_witness :
    (analyze hashConst reqSample oracleOk dbAlice []).response =
      .duplicateFound "Similar analysis found from recent history"
        recCompleted.analysis_id recCompleted.analysis_report
        recCompleted.created_at recCompleted.processing_time ∧
    (analyze hashConst reqSample oracleOk dbAlice []).db.analyses = dbAlice.analyses ∧
    (analyze hashConst reqSample oracleOk dbAlice []).pipelineRan = false :=
  analyze_duplicate_short_circuit hashConst reqSample oracleOk dbAlice []
    recCompleted (by decide) (by decide) (by decide)

/-- C3: when extraction raises or yields only whitespace, the created
record is left failed with an error message in the store and the response
is a 400 client error. -/
theorem analyze_unreadable_marks_failed_400 (hashFn : List Nat → String)
    (req : AnalyzeRequest) (o : Oracle) (db : DB) (fs : List String)
    (hval : pyEndsWith (pyLower req.filename) ".pdf" = true)
    (hne : req.content.isEmpty = false)
    (hdup : findDuplicate (dbAfterUser db req.user_email req.user_name o.newUserUuid)
        (resolvedUser db req.user_email req.user_name o.newUserUuid).id
        (hashFn req.content) o.now = none)
    (hext : (∃ m, o.extraction = .error m) ∨
      ∃ t, o.extraction = .ok t ∧ pyStrip t = "") :
    ((analyze hashFn req o db fs).record.map (fun r => r.status)) = some "failed" ∧
    ((analyze hashFn req o db fs).record.map (fun r => r.error_message.isSome)) = some true ∧
    (analyze hashFn req o db fs).response.statusCode = 400 ∧
    (analyze hashFn req o db fs).db.analyses =
      (dbAfterUser db req.user_email req.user_name o.newUserUuid).analyses ++
        (analyze hashFn req o db fs).record.toList := by
  rcases hext with ⟨m, hm⟩ | ⟨t, ht, hts⟩
  · rw [analyze_extract_error hashFn req o db fs m hval hne hdup hm]
    exact ⟨rfl, rfl, rfl, rfl⟩
  · rw [analyze_no_text hashFn req o db fs t hval hne hdup ht hts]
    exact ⟨rfl, rfl, rfl, rfl⟩

/-- Witness for C3: a PDF that pypdf cannot read yields a failed record
and a 400. -/
theorem analyze_unreadable_marks_failed_400_witness :
    ((analyze hashConst reqSample oracleExtractFail dbEmpty []).record.map
      (fun r => r.status)) = some "failed" ∧
    ((analyze hashConst reqSample oracleExtractFail dbEmpty []).record.map
      (fun r => r.error_message.isSome)) = some true ∧
    (analyze hashConst reqSample oracleExtractFail dbEmpty []).response.statusCode = 400 ∧
    (analyze hashConst reqSample oracleExtractFail dbEmpty []).db.analyses =
      (dbAfterUser dbEmpty reqSample.user_email reqSample.user_name
        oracleExtractFail.newUserUuid).analyses ++
        (analyze hashConst reqSample oracleExtractFail dbEmpty []).record.toList :=
  analyze_unreadable_marks_failed_400 hashConst reqSample oracleExtractFail
    dbEmpty [] (by decide) (by decide) (by decide)
    (Or.inl ⟨"boom", rfl⟩)

/-- C4 counterexample: the filename "report.PDF" does not end in ".pdf",
yet the handler accepts it (case-insensitive check), returns 200 and
creates a record — the claim as stated fails at this input. -/
theorem uppercase_pdf_accepted :
    pyEndsWith reqPdfUpper.filename ".pdf" = false ∧
    (analyze hashConst reqPdfUpper oracleOk dbEmpty []).response.statusCode = 200 ∧
    (analyze hashConst reqPdfUpper oracleOk dbEmpty []).db.analyses ≠ [] := by
  decide

/-- C4 (amended): for every request whose lowercased filename does not end
in ".pdf" or whose body is empty, the handler returns a 400 and neither
the store nor the working directory is touched — validation happens
strictly before record creation. -/
theorem analyze_validation_before_record (hashFn : List Nat → String)
    (req : AnalyzeRequest) (o : Oracle) (db : DB) (fs : List String)
    (h : pyEndsWith (pyLower req.filename) ".pdf" = false ∨
      req.content.isEmpty = true) :
    (analyze hashFn req o db fs).response.statusCode = 400 ∧
    (analyze hashFn req o db fs).db = db ∧
    (analyze hashFn req o db fs).record = none ∧
    (analyze hashFn req o db fs).fs = fs := by
  by_cases hval : pyEndsWith (pyLower req.filename) ".pdf" = false
  · rw [analyze_bad_filename hashFn req o db fs hval]
    exact ⟨rfl, rfl, rfl, rfl⟩
  · have hval' : pyEndsWith (pyLower req.filename) ".pdf" = true := by
      revert hval
      cases pyEndsWith (pyLower req.filename) ".pdf" <;> simp
    rcases h with h | h
    · exact absurd h hval
    · rw [analyze_empty_content hashFn req o db fs hval' h]
      exact ⟨rfl, rfl, rfl, rfl⟩

/-- Witness for the amended C4: a .txt upload is rejected with no record. -/
theorem analyze_validation_before_record_witness :
    (analyze hashConst reqTxt oracleOk dbEmpty []).response.statusCode = 400 ∧
    (analyze hashConst reqTxt oracleOk dbEmpty []).db = dbEmpty ∧
    (analyze hashConst reqTxt oracleOk dbEmpty []).record = none ∧
    (analyze hashConst reqTxt oracleOk dbEmpty []).fs = [] :=
  analyze_validation_before_record hashConst reqTxt oracleOk dbEmpty []
    (Or.inl (by decide))

/-- C7: the temporary upload file written under the working directory is
removed before the handler returns, on the success path, the duplicate
path, and every failure path. -/
theorem analyze_temp_file_removed (hashFn : List Nat → String)
    (req : AnalyzeRequest) (o : Oracle) (db : DB) (fs : List String)
    (hfresh : tempFilePath o.fileId ∉ fs) :
    tempFilePath o.fileId ∉ (analyze hashFn req o db fs).fs := by
  have herase : (fs ++ [tempFilePath o.fileId]).erase (tempFilePath o.fileId) = fs :=
    erase_append_singleton fs _ hfresh
  by_cases hval : pyEndsWith (pyLower req.filename) ".pdf" = false
  · rw [analyze_bad_filename hashFn req o db fs hval]
    exact hfresh
  · have hval' : pyEndsWith (pyLower req.filename) ".pdf" = true := by
      revert hval
      cases pyEndsWith (pyLower req.filename) ".pdf" <;> simp
    by_cases hne : req.content.isEmpty = true
    · rw [analyze_empty_content hashFn req o db fs hval' hne]
      exact hfresh
    · have hne' : req.content.isEmpty = false := by
        revert hne
        cases req.content.isEmpty <;> simp
      cases hfd : findDuplicate
          (dbAfterUser db req.user_email req.user_name o.newUserUuid)
          (resolvedUser db req.user_email req.user_name o.newUserUuid).id
          (hashFn req.content) o.now with
      | some d =>
        rw [analyze_duplicate hashFn req o db fs d hval' hne' hfd]
        simpa [herase] using hfresh
      | none =>
        cases hex : o.extraction with
        | error m =>
          rw [analyze_extract_error hashFn req o db fs m hval' hne' hfd hex]
          simpa [herase] using hfresh
        | ok t =>
          by_cases hts : pyStrip t = ""
          · rw [analyze_no_text hashFn req o db fs t hval' hne' hfd hex hts]
            simpa [herase] using hfresh
          · cases hp : o.pipeline with
            | error m =>
              rw [analyze_pipeline_error hashFn req o db fs t m hval' hne' hfd hex hts hp]
              simpa [herase] using hfresh
            | ok resp =>
              rw [analyze_success hashFn req o db fs t resp hval' hne' hfd hex hts hp]
              simpa [herase] using hfresh

/-- Witness for C7 on a concrete successful request. -/
theorem analyze_temp_file_removed_witness :
    tempFilePath oracleOk.fileId ∉ (analyze hashConst reqSample oracleOk dbEmpty []).fs :=
  analyze_temp_file_removed hashConst reqSample oracleOk dbEmpty [] (by decide)

/-- C9: for every request that passes validation, if no user with the
submitted email exists, the new user row is committed before the duplicate
lookup runs, so it is present in the final store whatever the outcome —
including when the response is the duplicate short-circuit. -/
theorem analyze_creates_user_before_duplicate_check (hashFn : List Nat → String)
    (req : AnalyzeRequest) (o : Oracle) (db : DB) (fs : List String)
    (hval : pyEndsWith (pyLower req.filename) ".pdf" = true)
    (hne : req.content.isEmpty = false)
    (hnew : db.users.find? (fun u => u.email == req.user_email) = none) :
    (analyze hashFn req o db fs).db.users =
      db.users ++ [{ id := nextUserId db, user_id := o.newUserUuid,
                     email := req.user_email, full_name := req.user_name,
                     is_active := true }] := by
  have husers : (dbAfterUser db req.user_email req.user_name o.newUserUuid).users =
      db.users ++ [{ id := nextUserId db, user_id := o.newUserUuid,
                     email := req.user_email, full_name := req.user_name,
                     is_active := true }] := by
    rw [dbAfterUser_users_of_new db _ _ _ hnew, resolvedUser_of_new db _ _ _ hnew]
  cases hfd : findDuplicate
      (dbAfterUser db req.user_email req.user_name o.newUserUuid)
      (resolvedUser db req.user_email req.user_name o.newUserUuid).id
      (hashFn req.content) o.now with
  | some d =>
    rw [analyze_duplicate hashFn req o db fs d hval hne hfd]
    exact husers
  | none =>
    cases hex : o.extraction with
    | error m =>
      rw [analyze_extract_error hashFn req o db fs m hval hne hfd hex]
      exact husers
    | ok t =>
      by_cases hts : pyStrip t = ""
      · rw [analyze_no_text hashFn req o db fs t hval hne hfd hex hts]
        exact husers
      · cases hp : o.pipeline with
        | error m =>
          rw [analyze_pipeline_error hashFn req o db fs t m hval hne hfd hex hts hp]
          exact husers
        | ok resp =>
          rw [analyze_success hashFn req o db fs t resp hval hne hfd hex hts hp]
          exact husers

/-- Witness for C9: against a store with a dangling completed analysis
row, the request is answered by the duplicate short-circuit and the new
user row was still created. -/
theorem analyze_creates_user_before_duplicate_check_witness :
    (analyze hashConst reqSample oracleOk dbDangling []).db.users =
      dbDangling.users ++
        [{ id := nextUserId dbDangling, user_id := oracleOk.newUserUuid,
           email := reqSample.user_email, full_name := reqSample.user_name,
           is_active := true }] :=
  analyze_creates_user_before_duplicate_check hashConst reqSample oracleOk
    dbDangling [] (by decide) (by decide) (by decide)

/-- C10: on every non-duplicate validated request a record is created, its
stored query is the submitted query with surrounding whitespace stripped,
and when the submitted query is empty or whitespace-only the stored query
is exactly "Analyze this financial document for investment insights". -/
theorem analyze_query_stripped_or_default (hashFn : List Nat → String)
    (req : AnalyzeRequest) (o : Oracle) (db : DB) (fs : List String)
    (hval : pyEndsWith (pyLower req.filename) ".pdf" = true)
    (hne : req.content.isEmpty = false)
    (hdup : findDuplicate (dbAfterUser db req.user_email req.user_name o.newUserUuid)
        (resolvedUser db req.user_email req.user_name o.newUserUuid).id
        (hashFn req.content) o.now = none) :
    (analyze hashFn req o db fs).record.isSome = true ∧
    (pyStrip req.query ≠ "" →
      (analyze hashFn req o db fs).record.map (fun r => r.query) =
        some (pyStrip req.query)) ∧
    (pyStrip req.query = "" →
      (analyze hashFn req o db fs).record.map (fun r => r.query) =
        some "Analyze this financial document for investment insights") := by
  have hq : ∀ a : AnalyzeOutcome,
      a.record.map (fun r => r.query) =
        some (if pyStrip req.query ≠ "" then pyStrip req.query else defaultQuery) →
      a.record.isSome = true ∧
      (pyStrip req.query ≠ "" →
        a.record.map (fun r => r.query) = some (pyStrip req.query)) ∧
      (pyStrip req.query = "" →
        a.record.map (fun r => r.query) =
          some "Analyze this financial document for investment insights") := by
    intro a h
    refine ⟨?_, ?_, ?_⟩
    · cases hr : a.record with
      | none => rw [hr] at h; exact absurd h (by simp)
      | some r => rfl
    · intro hs
      rw [h, if_pos hs]
    · intro hs
      rw [h, if_neg (by simp [hs])]
      rfl
  cases hex : o.extraction with
  | error m =>
    exact hq _ (by rw [analyze_extract_error hashFn req o db fs m hval hne hdup hex]; rfl)
  | ok t =>
    by_cases hts : pyStrip t = ""
    · exact hq _ (by rw [analyze_no_text hashFn req o db fs t hval hne hdup hex hts]; rfl)
    · cases hp : o.pipeline with
      | error m =>
        exact hq _
          (by rw [analyze_pipeline_error hashFn req o db fs t m hval hne hdup hex hts hp]; rfl)
      | ok resp =>
        exact hq _
          (by rw [analyze_success hashFn req o db fs t resp hval hne hdup hex hts hp]; rfl)

/-- Witness for C10: the sample request's query "  q1 " is stored as "q1". -/
theorem analyze_query_stripped_or_default_witness :
    (analyze hashConst reqSample oracleOk dbEmpty []).record.map (fun r => r.query) =
      some (pyStrip reqSample.query) :=
  (analyze_query_stripped_or_default hashConst reqSample oracleOk dbEmpty []
    (by decide) (by decide) (by decide)).2.1 (by decide)
